import Mathlib

/-!
Verification development for `asyncpg/cluster.py`, the test-support module
that manages ephemeral PostgreSQL server instances.  The Python code is
shallowly embedded below: pure string processing is translated directly,
subprocess results and socket outcomes become explicit parameters, and
filesystem mutation becomes an explicit effect log.  Exceptions are
modelled with `Except`.
-/

/-- Errors raised by the cluster module: `ClusterError` (the module's own
exception class) and Python's built-in `ValueError`. -/
inductive PyError where
  | clusterError (msg : String)
  | valueError (msg : String)
  deriving Repr, DecidableEq

/-- Observable side effects of cluster operations: recursive directory
removal (`shutil.rmtree`), truncation of `pg_hba.conf` (opening it in
write mode), appending one record line to `pg_hba.conf`, and a server
configuration reload (`pg_ctl reload`). -/
inductive Effect where
  | rmtree (dir : String)
  | truncateHba
  | appendHba (record : String)
  | reloadConf
  deriving Repr, DecidableEq

/-- Helper for Python `str.splitlines`: accumulates the current line
(in reverse) and splits at each line boundary, recognising the `\r\n`,
`\r` and `\n` boundaries of the line terminators that can occur in a
postmaster.pid file.  A trailing boundary yields no trailing empty
string, matching Python. -/
def splitlinesAux : List Char → List Char → List String
  | [], [] => []
  | [], acc => [String.mk acc.reverse]
  | '\r' :: '\n' :: rest, acc => String.mk acc.reverse :: splitlinesAux rest []
  | '\r' :: rest, acc => String.mk acc.reverse :: splitlinesAux rest []
  | '\n' :: rest, acc => String.mk acc.reverse :: splitlinesAux rest []
  | c :: rest, acc => splitlinesAux rest (c :: acc)

/-- Python `str.splitlines` as used on the pidfile contents. -/
def splitlines (s : String) : List String :=
  splitlinesAux s.data []

/-- Digits of a decimal literal to a natural number; `none` when the
character list is empty or contains a non-digit. -/
def digitsToNat? (cs : List Char) : Option Nat :=
  if cs.isEmpty then none
  else cs.foldl (fun acc c =>
    acc.bind (fun n => if c.isDigit then some (n * 10 + (c.toNat - 48)) else none))
    (some 0)

/-- Whitespace strip at both ends, as Python's `str.strip()` does before
`int` parses a string (ASCII whitespace; exotic Unicode space characters
never occur in a postmaster.pid). -/
def pyStrip (s : String) : String :=
  String.mk (((s.data.dropWhile Char.isWhitespace).reverse.dropWhile
    Char.isWhitespace).reverse)

/-- Python `int(s)` on a string: surrounding whitespace is stripped, an
optional sign precedes a non-empty run of decimal digits; anything else
raises `ValueError` (modelled as `none`).  Underscore digit separators,
which never occur in a postmaster.pid first line, are not modelled. -/
def pyInt? (s : String) : Option Int :=
  let t := pyStrip s
  match t.data with
  | '+' :: rest => (digitsToNat? rest).map Int.ofNat
  | '-' :: rest => (digitsToNat? rest).map (fun n => -(n : Int))
  | cs => (digitsToNat? cs).map Int.ofNat

/-- Prefix test on character lists, used to keep the embedding
kernel-computable (the substring-based `String` primitives do not
reduce definitionally). -/
def charsStartWith : List Char → List Char → Bool
  | _, [] => true
  | [], _ :: _ => false
  | c :: cs, d :: ds => c = d && charsStartWith cs ds

/-- Python `str.startswith` on strings. -/
def strStartsWith (s p : String) : Bool :=
  charsStartWith s.data p.data

/-- Python `str.endswith` on strings. -/
def strEndsWith (s p : String) : Bool :=
  charsStartWith s.data.reverse p.data.reverse

/-- Split on the `/` separator, as Python `path.split('/')` inside
`posixpath.normpath` (trailing and repeated separators yield empty
components; the empty string yields one empty component). -/
def splitSlashAux : List Char → List Char → List String
  | [], acc => [String.mk acc.reverse]
  | '/' :: rest, acc => String.mk acc.reverse :: splitSlashAux rest []
  | c :: rest, acc => splitSlashAux rest (c :: acc)

/-- POSIX `os.path.join` on two components, as in CPython's
`posixpath.join`: an absolute second component replaces the first,
otherwise the components are joined with a single `/` separator unless
the first is empty or already ends in `/`. -/
def posixJoin (a b : String) : String :=
  if strStartsWith b "/" then b
  else if a = "" ∨ strEndsWith a "/" then a ++ b
  else a ++ "/" ++ b

/-- Component filter of CPython's `posixpath.normpath`: drop empty and
`.` components; a `..` component pops the previous component unless
there is nothing to pop (at the root, or at the start of a relative
path, or after an unpopped `..`). -/
def normpathComps (initialSlashes : Nat) (comps : List String) : List String :=
  comps.foldl (fun newComps comp =>
    if comp = "" ∨ comp = "." then newComps
    else if comp ≠ ".." ∨ (initialSlashes = 0 ∧ newComps = []) ∨
            newComps.getLast? = some ".." then
      newComps ++ [comp]
    else if newComps ≠ [] then newComps.dropLast
    else newComps) []

/-- CPython `posixpath.normpath`: collapse separators, resolve `.` and
`..`, preserving one or exactly two leading slashes. -/
def normpath (path : String) : String :=
  if path = "" then "."
  else
    let initialSlashes : Nat :=
      if strStartsWith path "/" then
        if strStartsWith path "//" ∧ ¬ strStartsWith path "///" then 2 else 1
      else 0
    let comps := splitSlashAux path.data []
    let newComps := normpathComps initialSlashes comps
    let joined := String.intercalate "/" newComps
    let result := String.mk (List.replicate initialSlashes '/') ++ joined
    if result = "" then "." else result

/-- Connection address discovered from the postmaster.pid file. -/
structure ConnAddr where
  host : String
  port : String
  deriving Repr, DecidableEq

/-- Truthiness test `self._daemon_pid and pmpid != self._daemon_pid` from
`_connection_addr_from_pidfile`: the pidfile is stale when a previously
recorded daemon pid exists (is truthy, i.e. not `None` and not `0`) and
the pid read from the file differs from it. -/
def pidStale (daemonPid : Option Int) (pmpid : Int) : Bool :=
  match daemonPid with
  | none => false
  | some d => d ≠ 0 && pmpid ≠ d

/-- Wildcard-address normalization at the end of
`_connection_addr_from_pidfile`. -/
def normalizeWildcardHost (h : String) : String :=
  if h = "*" then "localhost"
  else if h = "0.0.0.0" then "127.0.0.1"
  else if h = "::" then "::1"
  else h

/-- Embedding of `Cluster._connection_addr_from_pidfile`.  The pidfile
read becomes the parameter `piddata` (`none` models
`FileNotFoundError`); `dataDir` is `self._data_dir` and `daemonPid` is
`self._daemon_pid`.  An unparsable first line propagates Python's
`ValueError` from `int(lines[0])`. -/
def Cluster.connection_addr_from_pidfile (dataDir : String) (daemonPid : Option Int)
    (piddata : Option String) : Except PyError (Option ConnAddr) :=
  match piddata with
  | none => Except.ok none
  | some piddata =>
    let lines := splitlines piddata
    if lines.length < 6 then
      -- A complete postgres pidfile is at least 6 lines
      Except.ok none
    else
      match pyInt? (lines.get! 0) with
      | none =>
        Except.error (PyError.valueError
          ("invalid literal for int with base 10: " ++ lines.get! 0))
      | some pmpid =>
        if pidStale daemonPid pmpid then
          -- This might be an old pidfile left from previous postgres
          -- daemon run.
          Except.ok none
        else
          let portnum := lines.get! 3
          let sockdir := lines.get! 4
          let hostaddr := lines.get! 5
          let host1 :=
            if sockdir ≠ "" then
              if ¬ strStartsWith sockdir "/" then
                -- Relative sockdir
                normpath (posixJoin dataDir sockdir)
              else sockdir
            else hostaddr
          Except.ok (some { host := normalizeWildcardHost host1, port := portnum })

/-- Outcome of one iteration of the readiness-wait loop in
`Cluster._test_connection`: the connection spec can still be unknown
(`noSpec`, no connect attempt is made), or the connect attempt raises a
not-yet-reachable error (`OSError`, `asyncio.TimeoutError`,
`CannotConnectNowError`, `PostgresConnectionError`), raises some other
`PostgresError`, or succeeds. -/
inductive AttemptOutcome where
  | noSpec
  | notReachable
  | otherPgError
  | connected
  deriving Repr, DecidableEq

/-- Loop body of `Cluster._test_connection`, by structural recursion on
the remaining iterations of `for i in range(timeout)`.  The environment
is the oracle `attempts` giving each iteration's outcome; the result
pairs the returned status string with the number of connection attempts
actually made.  `noSpec` and `notReachable` sleep one second and
continue; `otherPgError` and `connected` break out of the loop; an
exhausted range falls through.  Every exit returns `'running'`. -/
def Cluster.test_connectionAux (attempts : Nat → AttemptOutcome) :
    Nat → Nat → Nat → String × Nat
  | 0, _, made => ("running", made)
  | fuel + 1, i, made =>
    match attempts i with
    | AttemptOutcome.noSpec => Cluster.test_connectionAux attempts fuel (i + 1) made
    | AttemptOutcome.notReachable =>
        Cluster.test_connectionAux attempts fuel (i + 1) (made + 1)
    | AttemptOutcome.otherPgError => ("running", made + 1)
    | AttemptOutcome.connected => ("running", made + 1)

/-- Embedding of `Cluster._test_connection` with the given whole-second
timeout budget. -/
def Cluster.test_connection (timeout : Nat) (attempts : Nat → AttemptOutcome) :
    String × Nat :=
  Cluster.test_connectionAux attempts timeout 0 0

/-- Match of the tail `:\s+(\d+)` of the pg_ctl status regex at the head
of the character list: one-or-more whitespace then a maximal non-empty
digit run, whose value is returned. -/
def matchColonRest (cs : List Char) : Option Nat :=
  let ws := cs.takeWhile Char.isWhitespace
  let rest := cs.dropWhile Char.isWhitespace
  if ws.isEmpty then none
  else
    let ds := rest.takeWhile Char.isDigit
    if ds.isEmpty then none else digitsToNat? ds

/-- Match of `PID\s?:\s+(\d+)` starting exactly at the head of the
character list.  The optional whitespace of `\s?` is consumed greedily
only when a colon follows it (a whitespace character is never a colon,
so checking the colon-first case first is equivalent). -/
def matchPidAt : List Char → Option Nat
  | 'P' :: 'I' :: 'D' :: rest =>
    (match rest with
     | c :: rest2 =>
       if c = ':' then matchColonRest rest2
       else if c.isWhitespace then
         match rest2 with
         | ':' :: rest3 => matchColonRest rest3
         | _ => none
       else none
     | [] => none)
  | _ => none

/-- All start positions for the `re.match` pattern
`.*PID\s?:\s+(\d+).*`: the leading `.*` matches only non-newline
characters, so a candidate start lies in the first line, while the
`\s+` inside the pattern may itself cross a newline.  Candidates are
listed left to right. -/
def pidMatchCandidates : List Char → List Nat
  | [] => []
  | c :: rest =>
    (matchPidAt (c :: rest)).toList ++
      (if c = '\n' then [] else pidMatchCandidates rest)

/-- Embedding of `re.match(r'.*PID\s?:\s+(\d+).*', stdout)` followed by
`int(r.group(1))`: the greedy leading `.*` selects the rightmost viable
start, so the last candidate wins; `none` models a failed match. -/
def Cluster.pid_from_status_output (stdout : String) : Option Nat :=
  (pidMatchCandidates stdout.data).getLast?

/-- Embedding of `Cluster.get_status`.  The `pg_ctl status` subprocess
becomes the parameters `returncode`, `stdout` and `stderr`;
`dataDirEmpty` is the result of `not os.listdir(self._data_dir)` (only
consulted when `returncode ≠ 4`, matching the `or` short circuit, but
passed eagerly since listing a directory is modelled as pure); the
readiness-probe outcomes are the oracle `attempts`.  The pid stored
into `self._daemon_pid` on the exit-code-0 path is not itself returned,
as no claim consumes it. -/
def Cluster.get_status (returncode : Int) (dataDirEmpty : Bool)
    (stdout stderr : String) (attempts : Nat → AttemptOutcome) :
    Except PyError String :=
  if returncode = 4 ∨ dataDirEmpty then Except.ok "not-initialized"
  else if returncode = 3 then Except.ok "stopped"
  else if returncode = 0 then
    match Cluster.pid_from_status_output stdout with
    | none =>
      Except.error (PyError.clusterError
        ("could not parse pg_ctl status output: " ++ stdout))
    | some _ => Except.ok (Cluster.test_connection 0 attempts).1
  else
    Except.error (PyError.clusterError
      ("pg_ctl status exited with status " ++ toString returncode ++ ": " ++ stderr))

/-- Embedding of `Cluster.destroy`: the status returned by
`self.get_status()` is the parameter `status`, and the
`shutil.rmtree(self._data_dir)` call is recorded in the effect log. -/
def Cluster.destroy (status dataDir : String) :
    Except PyError Unit × List Effect :=
  if status = "stopped" ∨ status = "not-initialized" then
    (Except.ok (), [Effect.rmtree dataDir])
  else
    (Except.error (PyError.clusterError ("cannot destroy " ++ status ++ " cluster")), [])

/-- Embedding of `Cluster.reset_hba`: truncate `pg_hba.conf` unless the
cluster is not initialized.  The `IOError` wrap on the open is not
modelled (the file write is assumed to succeed). -/
def Cluster.reset_hba (status : String) : Except PyError Unit × List Effect :=
  if status = "not-initialized" then
    (Except.error (PyError.clusterError
      "cannot modify HBA records: cluster is not initialized"), [])
  else (Except.ok (), [Effect.truncateHba])

/-- Tail of the record formatting in `Cluster.add_hba_entry`: append the
auth method and, when present, the space-joined `key=value` auth
options. -/
def finishRecord (record auth_method : String)
    (auth_options : Option (List (String × String))) : String :=
  let r := record ++ " " ++ auth_method
  match auth_options with
  | none => r
  | some opts =>
    r ++ " " ++ String.intercalate " " (opts.map (fun kv => kv.1 ++ "=" ++ kv.2))

/-- Embedding of `Cluster.add_hba_entry`.  Validation order follows the
source: not-initialized status first, then the record-type check, then
the missing-address check for non-`local` types; only after all checks
is the formatted record appended (via `print(record, file=f)`, whose
trailing newline is implied by the append-as-a-line effect).  The
`IOError` wrap on the append is not modelled. -/
def Cluster.add_hba_entry (status type database user : String)
    (address : Option String) (auth_method : String)
    (auth_options : Option (List (String × String))) :
    Except PyError Unit × List Effect :=
  if status = "not-initialized" then
    (Except.error (PyError.clusterError
      "cannot modify HBA records: cluster is not initialized"), [])
  else if ¬ (type = "local" ∨ type = "host" ∨ type = "hostssl" ∨ type = "hostnossl") then
    (Except.error (PyError.valueError ("invalid HBA record type: " ++ type)), [])
  else
    let record0 := type ++ " " ++ database ++ " " ++ user
    if type = "local" then
      (Except.ok (), [Effect.appendHba (finishRecord record0 auth_method auth_options)])
    else
      match address with
      | none =>
        (Except.error (PyError.valueError
          (type ++ " entry requires a valid address")), [])
      | some a =>
        (Except.ok (),
         [Effect.appendHba (finishRecord (record0 ++ " " ++ a) auth_method auth_options)])

/-- Embedding of `Cluster.reload`: fail unless the cluster is running,
otherwise invoke `pg_ctl reload` (its exit code is assumed zero, as no
claim concerns a failing reload subprocess). -/
def Cluster.reload (status : String) : Except PyError Unit × List Effect :=
  if status ≠ "running" then
    (Except.error (PyError.clusterError "cannot reload: cluster is not running"), [])
  else (Except.ok (), [Effect.reloadConf])

/-- Sequencing of two effectful steps: the second runs only when the
first succeeded, and its effects are appended to the log. -/
def seqE (a b : Except PyError Unit × List Effect) :
    Except PyError Unit × List Effect :=
  match a with
  | (Except.ok _, es) => (b.1, es ++ b.2)
  | (Except.error e, es) => (Except.error e, es)

/-- Embedding of `Cluster.trust_local_connections`.  The platform
(`platform.uname().system`) is the parameter `system`, and the cluster
status (stable across the composed calls, each of which performs its
own `get_status`) is the parameter `status`. -/
def Cluster.trust_local_connections (system status : String) :
    Except PyError Unit × List Effect :=
  seqE (Cluster.reset_hba status)
  (seqE (if system ≠ "Windows" then
           Cluster.add_hba_entry status "local" "all" "all" none "trust" none
         else (Except.ok (), []))
  (seqE (Cluster.add_hba_entry status "host" "all" "all" (some "127.0.0.1/32") "trust" none)
  (seqE (Cluster.add_hba_entry status "host" "all" "all" (some "::1/128") "trust" none)
  (if status = "running" then Cluster.reload status else (Except.ok (), [])))))

/-- Embedding of `Cluster.trust_local_replication_by`: unlike
`trust_local_connections`, the source performs no `reset_hba` call
before appending its entries. -/
def Cluster.trust_local_replication_by (system status user : String) :
    Except PyError Unit × List Effect :=
  seqE (if system ≠ "Windows" then
          Cluster.add_hba_entry status "local" "replication" user none "trust" none
        else (Except.ok (), []))
  (seqE (Cluster.add_hba_entry status "host" "replication" user (some "127.0.0.1/32") "trust" none)
  (seqE (Cluster.add_hba_entry status "host" "replication" user (some "::1/128") "trust" none)
  (if status = "running" then Cluster.reload status else (Except.ok (), []))))

/-- Result of one `sock.bind(('127.0.0.1', port))` attempt in
`find_available_port`: success, `socket.error` with errno
`EADDRINUSE`, or `socket.error` with any other errno (which the source
swallows and then breaks on). -/
inductive BindResult where
  | bound
  | addrInUse
  | otherSockError
  deriving Repr, DecidableEq

/-- Loop of `find_available_port`, by structural recursion on the
remaining tries of `while try_no < max_tries`.  `rand` is the oracle
for `random.randint(low, high)`, indexed by the attempt number; the
result pairs the returned port (`none` models Python's `None` from the
`while`/`else` clause) with the number of bind attempts made.  Only an
`EADDRINUSE` failure continues the loop; success or any other socket
error reaches the `break`. -/
def find_available_portAux (bind : Nat → BindResult) (rand : Nat → Nat) :
    Nat → Nat → Option Nat × Nat
  | 0, attempts => (none, attempts)
  | fuel + 1, attempts =>
    let port := rand attempts
    match bind port with
    | BindResult.addrInUse => find_available_portAux bind rand fuel (attempts + 1)
    | BindResult.bound => (some port, attempts + 1)
    | BindResult.otherSockError => (some port, attempts + 1)

/-- Embedding of `find_available_port` with an explicit bind oracle and
random-port oracle (a size-1 port range corresponds to a constant
`rand`). -/
def find_available_port (bind : Nat → BindResult) (rand : Nat → Nat)
    (max_tries : Nat) : Option Nat × Nat :=
  find_available_portAux bind rand max_tries 0

/-- Embedding of the `RunningCluster` state: only the caller-supplied
connection-spec mapping (the constructor's keyword arguments). -/
structure RunningCluster where
  conn_spec : List (String × String)

/-- Embedding of `RunningCluster.get_status`. -/
def RunningCluster.get_status (_c : RunningCluster) : String := "running"

/-- Embedding of `RunningCluster.init` (`pass`). -/
def RunningCluster.init (_c : RunningCluster)
    (_settings : List (String × String)) : Except PyError Unit × List Effect :=
  (Except.ok (), [])

/-- Embedding of `RunningCluster.start` (`pass`). -/
def RunningCluster.start (_c : RunningCluster) (_wait : Nat)
    (_settings : List (String × String)) : Except PyError Unit × List Effect :=
  (Except.ok (), [])

/-- Embedding of `RunningCluster.stop` (`pass`). -/
def RunningCluster.stop (_c : RunningCluster) (_wait : Nat) :
    Except PyError Unit × List Effect :=
  (Except.ok (), [])

/-- Embedding of `RunningCluster.destroy` (`pass`). -/
def RunningCluster.destroy (_c : RunningCluster) :
    Except PyError Unit × List Effect :=
  (Except.ok (), [])

/-- Embedding of `RunningCluster.get_connection_spec`: the source
returns `dict(self.conn_spec)`, a fresh copy with the same entries; in
the value semantics of the embedding this is the stored mapping
itself. -/
def RunningCluster.get_connection_spec (c : RunningCluster) :
    List (String × String) :=
  c.conn_spec

/-- Embedding of `RunningCluster.reset_hba`. -/
def RunningCluster.reset_hba (_c : RunningCluster) :
    Except PyError Unit × List Effect :=
  (Except.error (PyError.clusterError
    "cannot modify HBA records of unmanaged cluster"), [])

/-- Embedding of `RunningCluster.add_hba_entry`: rejected for every
argument combination, before any effect. -/
def RunningCluster.add_hba_entry (_c : RunningCluster)
    (_type _database _user : String) (_address : Option String)
    (_auth_method : String) (_auth_options : Option (List (String × String))) :
    Except PyError Unit × List Effect :=
  (Except.error (PyError.clusterError
    "cannot modify HBA records of unmanaged cluster"), [])


/-! Theorems about the embedded operations, one per claim. -/

/-- Helper for C3: every exit of the readiness-wait loop body returns the
string `'running'`, whatever the per-iteration outcomes are. -/
lemma test_connectionAux_fst (attempts : Nat → AttemptOutcome) :
    ∀ fuel i made, (Cluster.test_connectionAux attempts fuel i made).1 = "running" := by
  intro fuel
  induction fuel with
  | zero => intro i made; rfl
  | succ n ih =>
    intro i made
    cases h : attempts i <;> simp [Cluster.test_connectionAux, h, ih]

/-- C3: the readiness wait (`_test_connection`) returns `'running'` on
every execution path — whatever each iteration's outcome is (successful
connection, non-reachability error, or any other protocol error), and
also when the whole-second budget is exhausted; in particular with
`timeout = 0` the loop body never runs, so no connection attempt is
made at all. -/
theorem c3_test_connection_always_running (timeout : Nat)
    (attempts : Nat → AttemptOutcome) :
    (Cluster.test_connection timeout attempts).1 = "running" ∧
    (Cluster.test_connection 0 attempts).2 = 0 :=
  ⟨test_connectionAux_fst attempts timeout 0 0, rfl⟩

/-- Helper for C8: when every bind attempt fails with `EADDRINUSE`, the
loop consumes its whole budget, one bind per remaining try. -/
lemma find_available_portAux_all_in_use (bind : Nat → BindResult) (rand : Nat → Nat)
    (h : ∀ p, bind p = BindResult.addrInUse) :
    ∀ fuel attempts,
      find_available_portAux bind rand fuel attempts = (none, attempts + fuel) := by
  intro fuel
  induction fuel with
  | zero => intro a; simp [find_available_portAux]
  | succ n ih =>
    intro a
    simp only [find_available_portAux, h]
    rw [ih (a + 1)]
    congr 1
    omega

/-- C8: when every candidate port is already bound (every bind attempt
fails with `EADDRINUSE`, as happens for a size-1 range whose single
port is in use), `find_available_port` performs exactly `max_tries`
bind attempts and returns the null-port sentinel `none` without
raising. -/
theorem c8_port_search_exhaustion (bind : Nat → BindResult) (rand : Nat → Nat)
    (max_tries : Nat) (h : ∀ p, bind p = BindResult.addrInUse) :
    find_available_port bind rand max_tries = (none, max_tries) := by
  unfold find_available_port
  rw [find_available_portAux_all_in_use bind rand h max_tries 0]
  simp

/-- Witness for C8: the default budget of 1000 tries on a size-1 range
(a constant random oracle) whose port is always in use. -/
theorem c8_port_search_exhaustion_witness :
    find_available_port (fun _ => BindResult.addrInUse) (fun _ => 49152) 1000 =
      (none, 1000) :=
  c8_port_search_exhaustion _ _ 1000 (fun _ => rfl)

/-- C4: `get_status` maps the control tool's exit code: exit code 4 or
an empty data directory yields `not-initialized`; exit code 3 yields
`stopped`; exit code 0 parses the PID from stdout (raising
`ClusterError` when the pattern is absent) and returns the result of a
zero-timeout connection probe; any other exit code raises a
`ClusterError` whose message includes the exit code and the captured
error output. -/
theorem c4_get_status_exit_codes (returncode : Int) (dataDirEmpty : Bool)
    (stdout stderr : String) (attempts : Nat → AttemptOutcome) :
    ((returncode = 4 ∨ dataDirEmpty = true) →
       Cluster.get_status returncode dataDirEmpty stdout stderr attempts =
         Except.ok "not-initialized") ∧
    (returncode = 3 → dataDirEmpty = false →
       Cluster.get_status returncode dataDirEmpty stdout stderr attempts =
         Except.ok "stopped") ∧
    (returncode = 0 → dataDirEmpty = false →
       Cluster.pid_from_status_output stdout = none →
       Cluster.get_status returncode dataDirEmpty stdout stderr attempts =
         Except.error (PyError.clusterError
           ("could not parse pg_ctl status output: " ++ stdout))) ∧
    (∀ pid, returncode = 0 → dataDirEmpty = false →
       Cluster.pid_from_status_output stdout = some pid →
       Cluster.get_status returncode dataDirEmpty stdout stderr attempts =
         Except.ok (Cluster.test_connection 0 attempts).1) ∧
    (returncode ≠ 4 → returncode ≠ 3 → returncode ≠ 0 → dataDirEmpty = false →
       Cluster.get_status returncode dataDirEmpty stdout stderr attempts =
         Except.error (PyError.clusterError
           ("pg_ctl status exited with status " ++ toString returncode ++ ": " ++
             stderr))) := by
  refine ⟨?_, ?_, ?_, ?_, ?_⟩
  · intro h
    unfold Cluster.get_status
    rw [if_pos]
    rcases h with h | h
    · exact Or.inl h
    · exact Or.inr (by simp [h])
  · intro h3 hde
    subst h3; subst hde
    simp [Cluster.get_status]
  · intro h0 hde hpid
    subst h0; subst hde
    simp [Cluster.get_status, hpid]
  · intro pid h0 hde hpid
    subst h0; subst hde
    simp [Cluster.get_status, hpid]
  · intro h4 h3 h0 hde
    subst hde
    unfold Cluster.get_status
    rw [if_neg (by simp [h4]), if_neg h3, if_neg h0]

/-- Witness for C4: all five branches at concrete inputs. -/
theorem c4_get_status_exit_codes_witness :
    Cluster.get_status 4 false "" "" (fun _ => AttemptOutcome.connected) =
      Except.ok "not-initialized" ∧
    Cluster.get_status 3 false "" "" (fun _ => AttemptOutcome.connected) =
      Except.ok "stopped" ∧
    Cluster.get_status 0 false "no pid in this output" ""
        (fun _ => AttemptOutcome.connected) =
      Except.error (PyError.clusterError
        ("could not parse pg_ctl status output: " ++ "no pid in this output")) ∧
    Cluster.get_status 0 false "pg_ctl: server is running (PID: 1234)" ""
        (fun _ => AttemptOutcome.connected) =
      Except.ok (Cluster.test_connection 0 (fun _ => AttemptOutcome.connected)).1 ∧
    Cluster.get_status 7 false "" "boom" (fun _ => AttemptOutcome.connected) =
      Except.error (PyError.clusterError
        ("pg_ctl status exited with status " ++ toString (7 : Int) ++ ": " ++ "boom")) :=
  ⟨(c4_get_status_exit_codes 4 false "" "" _).1 (Or.inl rfl),
   (c4_get_status_exit_codes 3 false "" "" _).2.1 rfl rfl,
   (c4_get_status_exit_codes 0 false "no pid in this output" "" _).2.2.1 rfl rfl rfl,
   (c4_get_status_exit_codes 0 false "pg_ctl: server is running (PID: 1234)" "" _).2.2.2.1
     1234 rfl rfl rfl,
   (c4_get_status_exit_codes 7 false "" "boom" _).2.2.2.2
     (by decide) (by decide) (by decide) rfl⟩

/-- C5: `destroy` raises a `ClusterError` naming the offending status
and performs no filesystem effect when the status is `running`, and
recursively removes the data directory when the status is `stopped` or
`not-initialized`. -/
theorem c5_destroy_guard (status dataDir : String) :
    (status = "running" →
       Cluster.destroy status dataDir =
         (Except.error (PyError.clusterError
           ("cannot destroy " ++ status ++ " cluster")), [])) ∧
    (status = "stopped" ∨ status = "not-initialized" →
       Cluster.destroy status dataDir = (Except.ok (), [Effect.rmtree dataDir])) := by
  constructor
  · intro h
    subst h
    rfl
  · intro h
    unfold Cluster.destroy
    rw [if_pos h]

/-- Witness for C5: the running and the stopped cases at concrete
inputs. -/
theorem c5_destroy_guard_witness :
    Cluster.destroy "running" "/tmp/pgdata" =
      (Except.error (PyError.clusterError
        ("cannot destroy " ++ "running" ++ " cluster")), []) ∧
    Cluster.destroy "stopped" "/tmp/pgdata" =
      (Except.ok (), [Effect.rmtree "/tmp/pgdata"]) :=
  ⟨(c5_destroy_guard "running" "/tmp/pgdata").1 rfl,
   (c5_destroy_guard "stopped" "/tmp/pgdata").2 (Or.inl rfl)⟩

/-- C9: the unmanaged variant `RunningCluster` reports status
`running` unconditionally; `init`, `start`, `stop` and `destroy`
return without any filesystem or process effect; `get_connection_spec`
returns the caller-supplied fixed mapping; and `reset_hba` and
`add_hba_entry` raise `ClusterError` for every argument combination,
with no effect. -/
theorem c9_running_cluster_unmanaged (spec settings : List (String × String))
    (wait : Nat) (type database user auth_method : String)
    (address : Option String) (auth_options : Option (List (String × String))) :
    RunningCluster.get_status ⟨spec⟩ = "running" ∧
    RunningCluster.init ⟨spec⟩ settings = (Except.ok (), []) ∧
    RunningCluster.start ⟨spec⟩ wait settings = (Except.ok (), []) ∧
    RunningCluster.stop ⟨spec⟩ wait = (Except.ok (), []) ∧
    RunningCluster.destroy ⟨spec⟩ = (Except.ok (), []) ∧
    RunningCluster.get_connection_spec ⟨spec⟩ = spec ∧
    RunningCluster.reset_hba ⟨spec⟩ =
      (Except.error (PyError.clusterError
        "cannot modify HBA records of unmanaged cluster"), []) ∧
    RunningCluster.add_hba_entry ⟨spec⟩ type database user address auth_method
        auth_options =
      (Except.error (PyError.clusterError
        "cannot modify HBA records of unmanaged cluster"), []) :=
  ⟨rfl, rfl, rfl, rfl, rfl, rfl, rfl, rfl⟩

/-- C7: `add_hba_entry` called with a connection type other than
`local` and a null address raises an error with no write to the
access-control file (the effect log stays empty); likewise a type
outside the set of local, host, hostssl, hostnossl is rejected without
any file write, whatever the address is. -/
theorem c7_add_hba_entry_validation (status type database user auth_method : String)
    (auth_options : Option (List (String × String))) (htype : type ≠ "local") :
    (∃ e, Cluster.add_hba_entry status type database user none auth_method
        auth_options = (Except.error e, [])) ∧
    (∀ address, ¬ (type = "local" ∨ type = "host" ∨ type = "hostssl" ∨
        type = "hostnossl") →
      ∃ e, Cluster.add_hba_entry status type database user address auth_method
          auth_options = (Except.error e, [])) := by
  constructor
  · by_cases hs : status = "not-initialized"
    · exact ⟨PyError.clusterError "cannot modify HBA records: cluster is not initialized",
        by simp [Cluster.add_hba_entry, hs]⟩
    · by_cases hv : type = "local" ∨ type = "host" ∨ type = "hostssl" ∨
          type = "hostnossl"
      · refine ⟨PyError.valueError (type ++ " entry requires a valid address"), ?_⟩
        rcases hv with hv | hv | hv | hv
        · exact absurd hv htype
        · subst hv; simp [Cluster.add_hba_entry, hs]
        · subst hv; simp [Cluster.add_hba_entry, hs]
        · subst hv; simp [Cluster.add_hba_entry, hs]
      · exact ⟨PyError.valueError ("invalid HBA record type: " ++ type),
          by simp [Cluster.add_hba_entry, hs, hv]⟩
  · intro address hv
    by_cases hs : status = "not-initialized"
    · exact ⟨PyError.clusterError "cannot modify HBA records: cluster is not initialized",
        by simp [Cluster.add_hba_entry, hs]⟩
    · exact ⟨PyError.valueError ("invalid HBA record type: " ++ type),
        by simp [Cluster.add_hba_entry, hs, hv]⟩

/-- Witness for C7: a `host` entry with no address, and an invalid type
with an address, both rejected with an empty effect log. -/
theorem c7_add_hba_entry_validation_witness :
    (∃ e, Cluster.add_hba_entry "stopped" "host" "all" "all" none "trust" none =
      (Except.error e, [])) ∧
    (∃ e, Cluster.add_hba_entry "stopped" "bogus" "all" "all" (some "10.0.0.0/8")
        "trust" none = (Except.error e, [])) :=
  ⟨(c7_add_hba_entry_validation "stopped" "host" "all" "all" "trust" none
      (by decide)).1,
   (c7_add_hba_entry_validation "stopped" "bogus" "all" "all" "trust" none
      (by decide)).2 (some "10.0.0.0/8") (by decide)⟩

/-- C6: connection discovery yields no address (Python `None`) whenever
the status file has fewer than 6 lines, and also whenever a previously
recorded (truthy) daemon pid exists and the integer on the first line
differs from it. -/
theorem c6_connection_discovery_none (dataDir : String) (daemonPid : Option Int)
    (piddata : String)
    (h : (splitlines piddata).length < 6 ∨
         (∃ d pmpid, daemonPid = some d ∧ d ≠ 0 ∧
            pyInt? ((splitlines piddata).get! 0) = some pmpid ∧ pmpid ≠ d)) :
    Cluster.connection_addr_from_pidfile dataDir daemonPid (some piddata) =
      Except.ok none := by
  by_cases hlen : (splitlines piddata).length < 6
  · simp only [Cluster.connection_addr_from_pidfile]
    rw [if_pos hlen]
  · rcases h with h | ⟨d, pmpid, hd, hd0, hparse, hne⟩
    · exact absurd h hlen
    · subst hd
      simp only [Cluster.connection_addr_from_pidfile]
      rw [if_neg hlen, hparse]
      have hstale : pidStale (some d) pmpid = true := by
        simp [pidStale]
        exact ⟨hd0, hne⟩
      simp [hstale]

/-- Witness for C6: a 3-line file yields no address, and a complete
6-line file whose first line (pid 7) disagrees with the recorded
daemon pid 5 yields no address. -/
theorem c6_connection_discovery_none_witness :
    Cluster.connection_addr_from_pidfile "/data" none (some "1\n2\n3") =
      Except.ok none ∧
    Cluster.connection_addr_from_pidfile "/data" (some 5)
        (some "7\nb\nc\n5432\n\nlocalhost\n") = Except.ok none :=
  ⟨c6_connection_discovery_none "/data" none "1\n2\n3" (Or.inl (by decide)),
   c6_connection_discovery_none "/data" (some 5) "7\nb\nc\n5432\n\nlocalhost\n"
     (Or.inr ⟨5, 7, rfl, by decide, by decide, by decide⟩)⟩

/-- C10 (implicit): for a status file with at least 6 lines whose first
line is not a decimal integer string, `_connection_addr_from_pidfile`
raises an uncaught `ValueError` from `int(lines[0])` — not `None` and
not a `ClusterError` — and it does so whatever the recorded daemon pid
is, since the unguarded conversion happens before the stale-pid
comparison. -/
theorem c10_unparsable_pid_line (dataDir : String) (daemonPid : Option Int)
    (piddata : String) (h6 : ¬ (splitlines piddata).length < 6)
    (hbad : pyInt? ((splitlines piddata).get! 0) = none) :
    Cluster.connection_addr_from_pidfile dataDir daemonPid (some piddata) =
      Except.error (PyError.valueError
        ("invalid literal for int with base 10: " ++ (splitlines piddata).get! 0)) := by
  simp only [Cluster.connection_addr_from_pidfile]
  rw [if_neg h6, hbad]

/-- Witness for C10: a complete 6-line pidfile whose first line is the
non-numeric string `garbage`, with a recorded daemon pid present. -/
theorem c10_unparsable_pid_line_witness :
    Cluster.connection_addr_from_pidfile "/data" (some 5)
        (some "garbage\nb\nc\n5432\n\nlocalhost\n") =
      Except.error (PyError.valueError
        ("invalid literal for int with base 10: " ++
          (splitlines "garbage\nb\nc\n5432\n\nlocalhost\n").get! 0)) :=
  c10_unparsable_pid_line "/data" (some 5) "garbage\nb\nc\n5432\n\nlocalhost\n"
    (by decide) (by decide)

/-- C1: on a status file with at least 6 lines (whose first line parses
as an integer and is not stale against the recorded daemon pid),
connection discovery returns a host/port pair where the port is line 4
and the host is the non-empty socket directory of line 5 (a relative
one resolved by joining it to the data directory and normalizing),
otherwise the listen address of line 6; the chosen host string is
normalized by mapping the wildcard `*` to `localhost`, `0.0.0.0` to
`127.0.0.1` and `::` to `::1`. -/
theorem c1_connection_discovery (dataDir : String) (daemonPid : Option Int)
    (piddata : String) (l0 l1 l2 l3 l4 l5 : String) (rest : List String)
    (pmpid : Int)
    (hlines : splitlines piddata = l0 :: l1 :: l2 :: l3 :: l4 :: l5 :: rest)
    (hparse : pyInt? l0 = some pmpid)
    (hfresh : pidStale daemonPid pmpid = false) :
    Cluster.connection_addr_from_pidfile dataDir daemonPid (some piddata) =
      Except.ok (some (ConnAddr.mk
        (normalizeWildcardHost
          (if l4 ≠ "" then
            (if ¬ strStartsWith l4 "/" then normpath (posixJoin dataDir l4) else l4)
          else l5))
        l3)) ∧
    normalizeWildcardHost "*" = "localhost" ∧
    normalizeWildcardHost "0.0.0.0" = "127.0.0.1" ∧
    normalizeWildcardHost "::" = "::1" := by
  refine ⟨?_, rfl, rfl, rfl⟩
  simp only [Cluster.connection_addr_from_pidfile, hlines]
  rw [if_neg (by simp)]
  have h0 : (l0 :: l1 :: l2 :: l3 :: l4 :: l5 :: rest).get! 0 = l0 := rfl
  rw [h0, hparse]
  simp only [hfresh]
  rfl

/-- Witness for C1: with an empty socket directory and listen address
`0.0.0.0` the host resolves to `127.0.0.1`; with the relative socket
directory `rel/sock` it resolves to the data directory joined with
that relative path. -/
theorem c1_connection_discovery_witness :
    Cluster.connection_addr_from_pidfile "/data" none
        (some "123\nd\ne\n5432\n\n0.0.0.0\n") =
      Except.ok (some (ConnAddr.mk "127.0.0.1" "5432")) ∧
    Cluster.connection_addr_from_pidfile "/data" (some 123)
        (some "123\nd\ne\n5432\nrel/sock\n*\n") =
      Except.ok (some (ConnAddr.mk "/data/rel/sock" "5432")) := by
  constructor
  · rw [(c1_connection_discovery "/data" none "123\nd\ne\n5432\n\n0.0.0.0\n"
      "123" "d" "e" "5432" "" "0.0.0.0" [] 123 (by decide) (by decide) rfl).1]
    rfl
  · rw [(c1_connection_discovery "/data" (some 123) "123\nd\ne\n5432\nrel/sock\n*\n"
      "123" "d" "e" "5432" "rel/sock" "*" [] 123 (by decide) (by decide)
      (by decide)).1]
    rfl

/-- Counterexample for C2: on Linux with a running cluster,
`trust_local_replication_by` performs no truncation of the
access-control file at all — in particular its first effect is not the
reset that the claim asserts happens first. -/
theorem c2_counterexample :
    Effect.truncateHba ∉
      (Cluster.trust_local_replication_by "Linux" "running" "alice").2 ∧
    (Cluster.trust_local_replication_by "Linux" "running" "alice").2.head? ≠
      some Effect.truncateHba := by
  decide

/-- C2 (amended): `trust_local_replication_by` does NOT reset the
access-control file first (unlike `trust_local_connections`, whose
first effect is the truncation); it only appends its standard trust
entries — a `local` replication entry on non-Windows platforms, then
host entries for `127.0.0.1/32` and `::1/128` — and then reloads the
server configuration if the cluster status is currently running. -/
theorem c2_trust_local_replication_no_reset (system status user : String)
    (h : status ≠ "not-initialized") :
    ∃ r1 r2 r3,
      Cluster.add_hba_entry status "local" "replication" user none "trust" none =
        (Except.ok (), [Effect.appendHba r1]) ∧
      Cluster.add_hba_entry status "host" "replication" user (some "127.0.0.1/32")
          "trust" none = (Except.ok (), [Effect.appendHba r2]) ∧
      Cluster.add_hba_entry status "host" "replication" user (some "::1/128")
          "trust" none = (Except.ok (), [Effect.appendHba r3]) ∧
      Cluster.trust_local_replication_by system status user =
        (Except.ok (),
          (if system ≠ "Windows" then [Effect.appendHba r1] else []) ++
          [Effect.appendHba r2, Effect.appendHba r3] ++
          (if status = "running" then [Effect.reloadConf] else [])) ∧
      Effect.truncateHba ∉ (Cluster.trust_local_replication_by system status user).2 ∧
      (Cluster.trust_local_connections system status).2.head? =
        some Effect.truncateHba := by
  have ha : Cluster.add_hba_entry status "local" "replication" user none "trust"
      none = (Except.ok (), [Effect.appendHba
        (finishRecord ("local" ++ " " ++ "replication" ++ " " ++ user) "trust" none)]) := by
    unfold Cluster.add_hba_entry
    rw [if_neg h]
    rfl
  have hb : Cluster.add_hba_entry status "host" "replication" user
      (some "127.0.0.1/32") "trust" none = (Except.ok (), [Effect.appendHba
        (finishRecord ("host" ++ " " ++ "replication" ++ " " ++ user ++ " " ++
          "127.0.0.1/32") "trust" none)]) := by
    unfold Cluster.add_hba_entry
    rw [if_neg h]
    rfl
  have hc : Cluster.add_hba_entry status "host" "replication" user
      (some "::1/128") "trust" none = (Except.ok (), [Effect.appendHba
        (finishRecord ("host" ++ " " ++ "replication" ++ " " ++ user ++ " " ++
          "::1/128") "trust" none)]) := by
    unfold Cluster.add_hba_entry
    rw [if_neg h]
    rfl
  have hmain : Cluster.trust_local_replication_by system status user =
      (Except.ok (),
        (if system ≠ "Windows" then [Effect.appendHba
          (finishRecord ("local" ++ " " ++ "replication" ++ " " ++ user) "trust" none)]
         else []) ++
        [Effect.appendHba (finishRecord ("host" ++ " " ++ "replication" ++ " " ++
            user ++ " " ++ "127.0.0.1/32") "trust" none),
         Effect.appendHba (finishRecord ("host" ++ " " ++ "replication" ++ " " ++
            user ++ " " ++ "::1/128") "trust" none)] ++
        (if status = "running" then [Effect.reloadConf] else [])) := by
    unfold Cluster.trust_local_replication_by
    rw [ha, hb, hc]
    by_cases hw : system = "Windows" <;>
      by_cases hr : status = "running" <;>
        simp [hw, hr, seqE, Cluster.reload]
  refine ⟨_, _, _, ha, hb, hc, hmain, ?_, ?_⟩
  · rw [hmain]
    by_cases hw : system = "Windows" <;>
      by_cases hr : status = "running" <;>
        simp [hw, hr]
  · unfold Cluster.trust_local_connections Cluster.reset_hba
    rw [if_neg h]
    simp [seqE]

/-- Witness for the amended C2: Linux, running cluster, user `alice`. -/
theorem c2_trust_local_replication_no_reset_witness :
    ∃ r1 r2 r3,
      Cluster.add_hba_entry "running" "local" "replication" "alice" none "trust"
          none = (Except.ok (), [Effect.appendHba r1]) ∧
      Cluster.add_hba_entry "running" "host" "replication" "alice"
          (some "127.0.0.1/32") "trust" none = (Except.ok (), [Effect.appendHba r2]) ∧
      Cluster.add_hba_entry "running" "host" "replication" "alice"
          (some "::1/128") "trust" none = (Except.ok (), [Effect.appendHba r3]) ∧
      Cluster.trust_local_replication_by "Linux" "running" "alice" =
        (Except.ok (),
          (if ("Linux" : String) ≠ "Windows" then [Effect.appendHba r1] else []) ++
          [Effect.appendHba r2, Effect.appendHba r3] ++
          (if ("running" : String) = "running" then [Effect.reloadConf] else [])) ∧
      Effect.truncateHba ∉
        (Cluster.trust_local_replication_by "Linux" "running" "alice").2 ∧
      (Cluster.trust_local_connections "Linux" "running").2.head? =
        some Effect.truncateHba :=
  c2_trust_local_replication_no_reset "Linux" "running" "alice" (by decide)
